import Mathlib

/-!
Verification of the MCP database server (`server/postgres_db.py`) and the
client orchestration loop (`client/db_client.py`).

The Python code talks to an external SQLAlchemy engine and to an external
LLM agent.  Those externals are modelled as explicit oracle parameters:
an `Inspector` (catalog metadata), an execution outcome function for
`run_sql`, an `Engine` for the sample-data resource, and an `AgentOracle`
for the client loop.  The repository's own functions are transliterated
over these oracles; each definition mirrors one Python function.
-/

/-! ## Server-side data model (`server/postgres_db.py`) -/

/-- Database cell values, kept opaque (Python `Any`); modelled as strings. -/
abbrev SqlValue := String

/-- One result row: the `dict(r._mapping)` of a SQLAlchemy row, a mapping
from column name to value, modelled as an association list. -/
abbrev Row := List (String × SqlValue)

/-- A raw column record as produced by SQLAlchemy `Inspector.get_columns`:
`col["name"]`, the textual form of `col["type"]` (the source applies `str`
to the type object), `col["nullable"]`, and `col.get("default")`. -/
structure RawColumn where
  name : String
  type : String
  nullable : Bool
  default : Option String
deriving DecidableEq, Repr

/-- Model of the SQLAlchemy `Inspector`: the catalog is a finite map from
table name to its column records. -/
structure Inspector where
  catalog : List (String × List RawColumn)

/-- The table names known to the catalog (`Inspector.get_table_names`). -/
def Inspector.tableNames (insp : Inspector) : List String :=
  insp.catalog.map (·.1)

/-- `Inspector.get_columns`: the column records of a table; a table absent
from the catalog yields an empty list (the dialect behavior the source
relies on for its soft-failure policy: no exception, empty reflection). -/
def Inspector.getColumns (insp : Inspector) (table_name : String) : List RawColumn :=
  match insp.catalog.find? (fun p => p.1 = table_name) with
  | some p => p.2
  | none => []

/-- One entry of the `columns` list built by `describe_table`:
`{"name": ..., "type": str(...), "nullable": ..., "default": ...}`. -/
structure ColumnInfo where
  name : String
  type : String
  nullable : Bool
  default : Option String
deriving DecidableEq, Repr

/-- The response dict of `describe_table`: `{"table": ..., "columns": ...}`. -/
structure TableSchema where
  table : String
  columns : List ColumnInfo
deriving DecidableEq, Repr

/-- `describe_table(table_name)` from `server/postgres_db.py`: reflects the
columns of the table through the inspector and re-shapes each column record
into a `ColumnInfo`; no exception handling appears in the function body. -/
def describe_table (insp : Inspector) (table_name : String) : TableSchema :=
  ⟨table_name,
   (insp.getColumns table_name).map (fun col =>
     ⟨col.name, col.type, col.nullable, col.default⟩)⟩

/-- The `SQLQueryResult` pydantic model: success flag, the original SQL
text, `row_count`, optional rows, optional error text.  `row_count` is a
Python `int` (the DBAPI `rowcount` may be negative), hence `Int`. -/
structure SQLQueryResult where
  success : Bool
  sql : String
  row_count : Int
  rows : Option (List Row)
  error : Option String
deriving DecidableEq, Repr

/-- What executing one SQL text against the engine can do, as observed by
`run_sql`: the cursor reports `returns_rows` with materialized rows, or a
row count for a non-row-returning statement, or an exception whose
`str(e)` is the given message (`SQLAlchemyError` and the catch-all
`except Exception` both surface only `str(e)`). -/
inductive ExecOutcome where
  | returnsRows (rows : List Row)
  | noRows (rowcount : Int)
  | raises (msg : String)
deriving DecidableEq, Repr

/-- The observable effect of one `run_sql` call: the returned envelope and
whether `conn.commit()` was invoked. -/
structure RunEffect where
  result : SQLQueryResult
  committed : Bool
deriving DecidableEq, Repr

/-- `run_sql(sql_query)` from `server/postgres_db.py`: execute the literal
text; if the statement returns rows, materialize them all and report their
count without committing; otherwise commit and report the engine row
count; any raised error is caught and shaped into a `success=False`
envelope with `row_count=0` and `error=str(e)`. -/
def run_sql (exec : String → ExecOutcome) (sql_query : String) : RunEffect :=
  match exec sql_query with
  | .returnsRows rows =>
      ⟨⟨true, sql_query, (rows.length : Int), some rows, none⟩, false⟩
  | .noRows rowcount =>
      ⟨⟨true, sql_query, rowcount, none, none⟩, true⟩
  | .raises msg =>
      ⟨⟨false, sql_query, 0, none, some msg⟩, false⟩

/-- The dict returned by the `db://sample-data/{table_name}` resource. -/
structure SampleDataView where
  table : String
  columns : List String
  sample_rows : List Row
  error : Option String
deriving DecidableEq, Repr

/-- The engine as seen by the sample-data resource: the rows of each table,
and a failure oracle — `fetchFail t = some msg` models an exception (with
`str(e) = msg`) raised anywhere inside the `try` block (column reflection
or the bounded SELECT) for table `t`; `none` means both succeed. -/
structure Engine where
  tableRows : String → List Row
  fetchFail : String → Option String

/-- `sample_data_resource(table_name)` from `server/postgres_db.py`: inside
a `try`, reflect the column names and run `SELECT * FROM {table_name}
LIMIT 5` (the `LIMIT 5` is the literal constant in the f-string, modelled
by `List.take 5`); on any exception return empty columns and rows with the
error text populated. -/
def sample_data_resource (insp : Inspector) (eng : Engine)
    (table_name : String) : SampleDataView :=
  match eng.fetchFail table_name with
  | some e => ⟨table_name, [], [], some e⟩
  | none =>
      ⟨table_name,
       (insp.getColumns table_name).map (·.name),
       (eng.tableRows table_name).take 5,
       none⟩

/-- Python rendering of an optional string inside an f-string: `None`
prints as the literal text `None`. -/
def pyOptStr : Option String → String
  | some s => s
  | none => "None"

/-- Content part of a prompt message: `{"type": "text", "text": ...}`. -/
structure PromptContent where
  type : String
  text : String
deriving DecidableEq, Repr

/-- One prompt message: `{"role": ..., "content": ...}`. -/
structure PromptMessage where
  role : String
  content : PromptContent
deriving DecidableEq, Repr

/-- The dict returned by the `handle_query_error` prompt. -/
structure PromptResult where
  description : String
  messages : List PromptMessage
deriving DecidableEq, Repr

/-- The fixed three-step recovery script that closes the guidance text. -/
def recoveryScript : String :=
  "Here are your options:\n" ++
  "1. Call list_tables() to check available tables.\n" ++
  "2. Call describe_table(table_name) to inspect schema of the target table.\n" ++
  "3. Once you have correct schema/columns, craft a corrected SQL and call run_sql().\n" ++
  "Which step will you take?"

/-- `handle_query_error(error_message, table_name, sql_query)` from
`server/postgres_db.py`: a pure templating function producing one user
message that embeds the query and the error text and ends with the fixed
recovery script; `table_name` is accepted but never used in the output. -/
def handle_query_error (error_message : String) (table_name : Option String)
    (sql_query : Option String) : PromptResult :=
  ⟨"...",
   [⟨"user",
     ⟨"text",
      "You attempted to run this SQL query:\n" ++ pyOptStr sql_query ++
      "\n\n" ++ "It failed with the error:\n" ++ error_message ++
      "\n\n" ++ recoveryScript⟩⟩]⟩

/-! ## Client orchestration loop (`client/db_client.py`) -/

/-- Python `str.lower()` on the inputs the loop compares: characterwise
lowercasing of the string's characters. -/
def pyLower (s : String) : String := ⟨s.data.map Char.toLower⟩

/-- The `TaskRequest` pydantic model of the client: all fields optional. -/
structure TaskRequest where
  task_type : Option String
  description : Option String
  priority : Option String
deriving DecidableEq, Repr

/-- What an `await agent.run(...)` can do, as seen by the loop: return a
value, raise an `Exception` whose `str(e)` is the message (caught by the
`except Exception` arm), or raise `KeyboardInterrupt` (caught by the
`except KeyboardInterrupt` arm, which breaks the loop). -/
inductive PyErr where
  | exn (msg : String)
  | interrupt
deriving DecidableEq, Repr

/-- The LLM agent as an oracle: the structured extraction call, the task
execution call, and the free-form conversation call, keyed by the exact
instruction string the loop passes to `agent.run`. -/
structure AgentOracle where
  extract : String → Except PyErr TaskRequest
  execute : String → Except PyErr String
  freeform : String → Except PyErr String

/-- Observable events of one loop iteration: the agent calls issued (with
their instruction strings) and the user-visible error / response prints. -/
inductive ClientEvent where
  | extractCall (instruction : String)
  | executeCall (instruction : String)
  | freeformCall (userInput : String)
  | errorShown (msg : String)
  | responseShown (msg : String)
deriving DecidableEq, Repr

/-- Where the loop stands after one iteration: back at the top of the
`while True` awaiting input (Idle), or out of the loop (break). -/
inductive TurnOutcome where
  | idle
  | terminated
deriving DecidableEq, Repr

/-- The result of one iteration of the loop body. -/
structure TurnRes where
  events : List ClientEvent
  outcome : TurnOutcome
deriving DecidableEq, Repr

/-- The extraction instruction built in the `task` branch:
`f"Analyze a task with the following description: {task_description}"`. -/
def extractInstr (task_description : String) : String :=
  "Analyze a task with the following description: " ++ task_description

/-- The execution instruction built after confirmation:
`f"Execute the following task: {task.description}"`. -/
def execInstr (task : TaskRequest) : String :=
  "Execute the following task: " ++ pyOptStr task.description

/-- The error line printed by the `except Exception` arm:
`f"❌ Error: {e}"`. -/
def errorLine (msg : String) : String := "❌ Error: " ++ msg

/-- One iteration of the `while True` body of `structured_chat_loop`:
`user_input` is the line read at the top; `s 0` and `s 1` are the next
lines the iteration may read (`task_description`, then `proceed`).
Mirrors the source: the exit/quit check sits outside the inner `try`; in
the `task` branch an extraction call is issued, and only when it succeeds
is the confirmation read and, exactly on `proceed.lower() == "y"`, the
execution call issued; any other input falls through to a free-form call.
`except KeyboardInterrupt` breaks the loop; `except Exception` prints the
error line and the iteration ends with the loop still running. -/
def turn (ag : AgentOracle) (user_input : String) (s : Nat → String) :
    TurnRes :=
  if pyLower user_input = "exit" ∨ pyLower user_input = "quit" then
    ⟨[], .terminated⟩
  else if pyLower user_input = "task" then
    match ag.extract (extractInstr (s 0)) with
    | .error .interrupt => ⟨[.extractCall (extractInstr (s 0))], .terminated⟩
    | .error (.exn m) =>
        ⟨[.extractCall (extractInstr (s 0)), .errorShown (errorLine m)], .idle⟩
    | .ok task =>
        if pyLower (s 1) = "y" then
          match ag.execute (execInstr task) with
          | .error .interrupt =>
              ⟨[.extractCall (extractInstr (s 0)),
                .executeCall (execInstr task)], .terminated⟩
          | .error (.exn m) =>
              ⟨[.extractCall (extractInstr (s 0)),
                .executeCall (execInstr task),
                .errorShown (errorLine m)], .idle⟩
          | .ok r =>
              ⟨[.extractCall (extractInstr (s 0)),
                .executeCall (execInstr task),
                .responseShown r], .idle⟩
        else ⟨[.extractCall (extractInstr (s 0))], .idle⟩
  else
    match ag.freeform user_input with
    | .error .interrupt => ⟨[.freeformCall user_input], .terminated⟩
    | .error (.exn m) =>
        ⟨[.freeformCall user_input, .errorShown (errorLine m)], .idle⟩
    | .ok r => ⟨[.freeformCall user_input, .responseShown r], .idle⟩

/-! ## Concrete instances used to discharge hypotheses -/

/-- A concrete one-table inspector, used to instantiate hypotheses. -/
def inspBooks : Inspector :=
  ⟨[("books", [⟨"id", "INTEGER", false, none⟩])]⟩

/-- A concrete execution oracle that always raises, used as a witness. -/
def execBoom : String → ExecOutcome := fun _ => .raises "syntax error"

/-- A concrete execution oracle returning one row, used as a witness. -/
def execOneRow : String → ExecOutcome :=
  fun _ => .returnsRows [[("id", "1")]]

/-- A concrete execution oracle affecting one row, used as a witness. -/
def execUpdate : String → ExecOutcome := fun _ => .noRows 1

/-- A concrete engine whose sampling always fails, used as a witness. -/
def engBoom : Engine := ⟨fun _ => [], fun _ => some "boom"⟩

/-- A sample extracted task, used by the concrete agent oracle. -/
def taskReport : TaskRequest :=
  ⟨some "report", some "send weekly report", some "low"⟩

/-- A concrete agent oracle whose calls all succeed, used as a witness. -/
def agOk : AgentOracle :=
  ⟨fun _ => .ok taskReport, fun _ => .ok "done", fun _ => .ok "hi"⟩

/-- A concrete agent oracle whose extraction call raises, as a witness. -/
def agFail : AgentOracle :=
  ⟨fun _ => .error (.exn "boom"), fun _ => .error (.exn "boom"),
   fun _ => .error (.exn "boom")⟩

/-- A concrete input stream: task description, then confirmation `y`. -/
def sYes : Nat → String := fun n => if n = 0 then "send weekly report" else "y"

/-- A concrete input stream: task description, then confirmation `n`. -/
def sNo : Nat → String := fun n => if n = 0 then "send weekly report" else "n"

/-! ## Case equations for one loop iteration -/

/-- An `exit`/`quit` input breaks the loop before the inner `try`. -/
theorem turn_exit_eq (ag : AgentOracle) (u : String) (s : Nat → String)
    (h : pyLower u = "exit" ∨ pyLower u = "quit") :
    turn ag u s = ⟨[], .terminated⟩ := by
  unfold turn
  rw [if_pos h]

/-- A `task` turn whose extraction call raises an `Exception`. -/
theorem turn_extract_exn_eq (ag : AgentOracle) (u : String)
    (s : Nat → String) (m : String)
    (h1 : ¬(pyLower u = "exit" ∨ pyLower u = "quit"))
    (h2 : pyLower u = "task")
    (hx : ag.extract (extractInstr (s 0)) = .error (.exn m)) :
    turn ag u s =
      ⟨[.extractCall (extractInstr (s 0)), .errorShown (errorLine m)],
       .idle⟩ := by
  unfold turn
  rw [if_neg h1, if_pos h2, hx]

/-- A `task` turn whose extraction call is interrupted. -/
theorem turn_extract_interrupt_eq (ag : AgentOracle) (u : String)
    (s : Nat → String)
    (h1 : ¬(pyLower u = "exit" ∨ pyLower u = "quit"))
    (h2 : pyLower u = "task")
    (hx : ag.extract (extractInstr (s 0)) = .error .interrupt) :
    turn ag u s = ⟨[.extractCall (extractInstr (s 0))], .terminated⟩ := by
  unfold turn
  rw [if_neg h1, if_pos h2, hx]

/-- A `task` turn with successful extraction but a non-`y` confirmation. -/
theorem turn_confirm_no_eq (ag : AgentOracle) (u : String)
    (s : Nat → String) (t : TaskRequest)
    (h1 : ¬(pyLower u = "exit" ∨ pyLower u = "quit"))
    (h2 : pyLower u = "task")
    (hx : ag.extract (extractInstr (s 0)) = .ok t)
    (h3 : ¬pyLower (s 1) = "y") :
    turn ag u s = ⟨[.extractCall (extractInstr (s 0))], .idle⟩ := by
  unfold turn
  rw [if_neg h1, if_pos h2, hx]
  exact if_neg h3

/-- A confirmed `task` turn whose execution call succeeds. -/
theorem turn_confirm_yes_ok_eq (ag : AgentOracle) (u : String)
    (s : Nat → String) (t : TaskRequest) (r : String)
    (h1 : ¬(pyLower u = "exit" ∨ pyLower u = "quit"))
    (h2 : pyLower u = "task")
    (hx : ag.extract (extractInstr (s 0)) = .ok t)
    (h3 : pyLower (s 1) = "y")
    (hex : ag.execute (execInstr t) = .ok r) :
    turn ag u s =
      ⟨[.extractCall (extractInstr (s 0)), .executeCall (execInstr t),
        .responseShown r], .idle⟩ := by
  unfold turn
  rw [if_neg h1, if_pos h2]
  simp only [hx]
  rw [if_pos h3, hex]

/-- A confirmed `task` turn whose execution call raises an `Exception`. -/
theorem turn_confirm_yes_exn_eq (ag : AgentOracle) (u : String)
    (s : Nat → String) (t : TaskRequest) (m : String)
    (h1 : ¬(pyLower u = "exit" ∨ pyLower u = "quit"))
    (h2 : pyLower u = "task")
    (hx : ag.extract (extractInstr (s 0)) = .ok t)
    (h3 : pyLower (s 1) = "y")
    (hex : ag.execute (execInstr t) = .error (.exn m)) :
    turn ag u s =
      ⟨[.extractCall (extractInstr (s 0)), .executeCall (execInstr t),
        .errorShown (errorLine m)], .idle⟩ := by
  unfold turn
  rw [if_neg h1, if_pos h2]
  simp only [hx]
  rw [if_pos h3, hex]

/-- A confirmed `task` turn whose execution call is interrupted. -/
theorem turn_confirm_yes_interrupt_eq (ag : AgentOracle) (u : String)
    (s : Nat → String) (t : TaskRequest)
    (h1 : ¬(pyLower u = "exit" ∨ pyLower u = "quit"))
    (h2 : pyLower u = "task")
    (hx : ag.extract (extractInstr (s 0)) = .ok t)
    (h3 : pyLower (s 1) = "y")
    (hex : ag.execute (execInstr t) = .error .interrupt) :
    turn ag u s =
      ⟨[.extractCall (extractInstr (s 0)), .executeCall (execInstr t)],
       .terminated⟩ := by
  unfold turn
  rw [if_neg h1, if_pos h2]
  simp only [hx]
  rw [if_pos h3, hex]

/-- A free-form turn whose conversational call succeeds. -/
theorem turn_free_ok_eq (ag : AgentOracle) (u : String) (s : Nat → String)
    (r : String)
    (h1 : ¬(pyLower u = "exit" ∨ pyLower u = "quit"))
    (h2 : ¬pyLower u = "task")
    (hf : ag.freeform u = .ok r) :
    turn ag u s = ⟨[.freeformCall u, .responseShown r], .idle⟩ := by
  unfold turn
  rw [if_neg h1, if_neg h2, hf]

/-- A free-form turn whose conversational call raises an `Exception`. -/
theorem turn_free_exn_eq (ag : AgentOracle) (u : String) (s : Nat → String)
    (m : String)
    (h1 : ¬(pyLower u = "exit" ∨ pyLower u = "quit"))
    (h2 : ¬pyLower u = "task")
    (hf : ag.freeform u = .error (.exn m)) :
    turn ag u s =
      ⟨[.freeformCall u, .errorShown (errorLine m)], .idle⟩ := by
  unfold turn
  rw [if_neg h1, if_neg h2, hf]

/-- A free-form turn whose conversational call is interrupted. -/
theorem turn_free_interrupt_eq (ag : AgentOracle) (u : String)
    (s : Nat → String)
    (h1 : ¬(pyLower u = "exit" ∨ pyLower u = "quit"))
    (h2 : ¬pyLower u = "task")
    (hf : ag.freeform u = .error .interrupt) :
    turn ag u s = ⟨[.freeformCall u], .terminated⟩ := by
  unfold turn
  rw [if_neg h1, if_neg h2, hf]

/-! ## Claims -/

/-- C1: for every table name absent from the catalog, `describe_table`
returns a descriptor with `table = T` and an empty column sequence; the
function is total, so no exception escapes the call. -/
theorem describe_table_missing_empty (insp : Inspector) (T : String)
    (h : T ∉ insp.tableNames) : describe_table insp T = ⟨T, []⟩ := by
  simp only [Inspector.tableNames, List.mem_map, not_exists] at h
  have hfind : insp.catalog.find? (fun p => p.1 = T) = none := by
    rw [List.find?_eq_none]
    intro p hp
    simp only [decide_eq_true_eq]
    intro hpt
    exact h p ⟨hp, hpt⟩
  simp [describe_table, Inspector.getColumns, hfind]

/-- C1 witness: `describe_table` on the absent table name `ghost_table`. -/
theorem describe_table_missing_empty_witness :
    describe_table inspBooks "ghost_table" = ⟨"ghost_table", []⟩ :=
  describe_table_missing_empty inspBooks "ghost_table" (by decide)

/-- C2: whenever execution raises with message `e`, `run_sql` catches it
and returns `success=false`, `row_count=0`, rows absent, and the error
field equal to `e` verbatim; no commit happens and no exception escapes
(the function is total). -/
theorem run_sql_error_envelope (exec : String → ExecOutcome) (S e : String)
    (h : exec S = .raises e) :
    run_sql exec S = ⟨⟨false, S, 0, none, some e⟩, false⟩ := by
  simp [run_sql, h]

/-- C2 witness: an oracle that raises on every statement. -/
theorem run_sql_error_envelope_witness :
    run_sql execBoom "SELEC 1" =
      ⟨⟨false, "SELEC 1", 0, none, some "syntax error"⟩, false⟩ :=
  run_sql_error_envelope execBoom "SELEC 1" "syntax error" rfl

/-- C3: whenever execution returns rows, `run_sql` returns `success=true`,
all rows materialized, error absent, `row_count` equal to the number of
rows, and does not commit. -/
theorem run_sql_rows_success (exec : String → ExecOutcome) (S : String)
    (rows : List Row) (h : exec S = .returnsRows rows) :
    run_sql exec S =
      ⟨⟨true, S, (rows.length : Int), some rows, none⟩, false⟩ := by
  simp [run_sql, h]

/-- C3 witness: an oracle returning a single row. -/
theorem run_sql_rows_success_witness :
    run_sql execOneRow "SELECT * FROM books" =
      ⟨⟨true, "SELECT * FROM books", 1, some [[("id", "1")]], none⟩, false⟩ :=
  run_sql_rows_success execOneRow "SELECT * FROM books" [[("id", "1")]] rfl

/-- C4: whenever execution returns no rows with engine row count `n`,
`run_sql` commits and returns `success=true`, rows absent, error absent,
and `row_count = n`. -/
theorem run_sql_norows_commit (exec : String → ExecOutcome) (S : String)
    (n : Int) (h : exec S = .noRows n) :
    run_sql exec S = ⟨⟨true, S, n, none, none⟩, true⟩ := by
  simp [run_sql, h]

/-- C4 witness: an oracle reporting one affected row. -/
theorem run_sql_norows_commit_witness :
    run_sql execUpdate "UPDATE books SET x=1" =
      ⟨⟨true, "UPDATE books SET x=1", 1, none, none⟩, true⟩ :=
  run_sql_norows_commit execUpdate "UPDATE books SET x=1" 1 rfl

/-- C5: for every input SQL text, the envelope returned by `run_sql` never
has rows and error both present, and the error field is present exactly
when `success = false`. -/
theorem run_sql_result_invariant (exec : String → ExecOutcome) (S : String) :
    ¬((run_sql exec S).result.rows.isSome ∧
        (run_sql exec S).result.error.isSome) ∧
      ((run_sql exec S).result.error.isSome ↔
        (run_sql exec S).result.success = false) := by
  cases h : exec S <;> simp [run_sql, h]

/-- C6: the sample-data resource returns at most 5 sample rows, and on any
execution error it returns empty columns and rows with the error text
populated; the function is total, so it never raises past the boundary. -/
theorem sample_data_bounded_and_soft_fail (insp : Inspector) (eng : Engine)
    (T : String) :
    (sample_data_resource insp eng T).sample_rows.length ≤ 5 ∧
      (∀ e, eng.fetchFail T = some e →
        sample_data_resource insp eng T = ⟨T, [], [], some e⟩) := by
  constructor
  · cases h : eng.fetchFail T <;>
      simp [sample_data_resource, h, List.length_take]
  · intro e he
    simp [sample_data_resource, he]

/-- C6 witness: a failing engine yields the soft-failure view, and the
bound holds there. -/
theorem sample_data_bounded_and_soft_fail_witness :
    (sample_data_resource inspBooks engBoom "books").sample_rows.length ≤ 5 ∧
      sample_data_resource inspBooks engBoom "books" =
        ⟨"books", [], [], some "boom"⟩ :=
  ⟨(sample_data_bounded_and_soft_fail inspBooks engBoom "books").1,
   (sample_data_bounded_and_soft_fail inspBooks engBoom "books").2 "boom" rfl⟩

/-- C7: `handle_query_error` is a pure function (its output is fully
determined by this equation), and the message text contains the SQL query
and the error message verbatim, followed by the fixed three-step recovery
script. -/
theorem handle_query_error_template (e q : String) (t : Option String) :
    handle_query_error e t (some q) =
      ⟨"...",
       [⟨"user",
         ⟨"text",
          "You attempted to run this SQL query:\n" ++ q ++ "\n\n" ++
          "It failed with the error:\n" ++ e ++ "\n\n" ++
          recoveryScript⟩⟩]⟩ := rfl

/-- C8: an execution call is issued in a turn exactly when the input was
`task`, the extraction call succeeded, and the confirmation input
lowercased equals `y`; and when extraction succeeded but the confirmation
is anything else, the task is discarded and the loop returns to Idle. -/
theorem confirmation_gate (ag : AgentOracle) (u : String) (s : Nat → String) :
    ((∃ d, ClientEvent.executeCall d ∈ (turn ag u s).events) ↔
       (pyLower u = "task" ∧
        (∃ t, ag.extract (extractInstr (s 0)) = .ok t) ∧
        pyLower (s 1) = "y")) ∧
      (∀ t, pyLower u = "task" →
        ag.extract (extractInstr (s 0)) = .ok t →
        pyLower (s 1) ≠ "y" → (turn ag u s).outcome = .idle) := by
  by_cases h1 : pyLower u = "exit" ∨ pyLower u = "quit"
  · rw [turn_exit_eq ag u s h1]
    constructor
    · constructor
      · rintro ⟨d, hd⟩
        simp at hd
      · rintro ⟨ht, -, -⟩
        rcases h1 with h1 | h1 <;> rw [ht] at h1 <;> exact absurd h1 (by decide)
    · intro t ht
      rcases h1 with h1 | h1 <;> rw [ht] at h1 <;> exact absurd h1 (by decide)
  · by_cases h2 : pyLower u = "task"
    · cases hx : ag.extract (extractInstr (s 0)) with
      | error e =>
          have hcontra : ¬∃ t : TaskRequest,
              (Except.error e : Except PyErr TaskRequest) = Except.ok t := by
            rintro ⟨t, ht⟩
            simp at ht
          have hturn : (∃ d, ClientEvent.executeCall d ∈ (turn ag u s).events)
              → False := by
            cases e with
            | exn m =>
                rw [turn_extract_exn_eq ag u s m h1 h2 hx]
                rintro ⟨d, hd⟩
                simp at hd
            | interrupt =>
                rw [turn_extract_interrupt_eq ag u s h1 h2 hx]
                rintro ⟨d, hd⟩
                simp at hd
          refine ⟨⟨fun hex => absurd hex hturn, ?_⟩, ?_⟩
          · rintro ⟨-, hex, -⟩
            exact absurd hex hcontra
          · intro t _ ht
            exact absurd ⟨t, ht⟩ hcontra
      | ok t0 =>
          by_cases h3 : pyLower (s 1) = "y"
          · have hex : ∃ d, ClientEvent.executeCall d ∈ (turn ag u s).events := by
              cases hexe : ag.execute (execInstr t0) with
              | error e =>
                  cases e with
                  | exn m =>
                      rw [turn_confirm_yes_exn_eq ag u s t0 m h1 h2 hx h3 hexe]
                      exact ⟨execInstr t0, by simp⟩
                  | interrupt =>
                      rw [turn_confirm_yes_interrupt_eq ag u s t0 h1 h2 hx h3
                        hexe]
                      exact ⟨execInstr t0, by simp⟩
              | ok r =>
                  rw [turn_confirm_yes_ok_eq ag u s t0 r h1 h2 hx h3 hexe]
                  exact ⟨execInstr t0, by simp⟩
            refine ⟨⟨fun _ => ⟨h2, ⟨t0, rfl⟩, h3⟩, fun _ => hex⟩, ?_⟩
            intro t _ _ hny
            exact absurd h3 hny
          · rw [turn_confirm_no_eq ag u s t0 h1 h2 hx h3]
            refine ⟨⟨?_, ?_⟩, ?_⟩
            · rintro ⟨d, hd⟩
              simp at hd
            · rintro ⟨-, -, hy⟩
              exact absurd hy h3
            · intro t _ _ _
              rfl
    · have hnoexec : (∃ d, ClientEvent.executeCall d ∈ (turn ag u s).events)
          → False := by
        cases hf : ag.freeform u with
        | error e =>
            cases e with
            | exn m =>
                rw [turn_free_exn_eq ag u s m h1 h2 hf]
                rintro ⟨d, hd⟩
                simp at hd
            | interrupt =>
                rw [turn_free_interrupt_eq ag u s h1 h2 hf]
                rintro ⟨d, hd⟩
                simp at hd
        | ok r =>
            rw [turn_free_ok_eq ag u s r h1 h2 hf]
            rintro ⟨d, hd⟩
            simp at hd
      refine ⟨⟨fun hex => absurd hex hnoexec, ?_⟩, ?_⟩
      · rintro ⟨ht, -, -⟩
        exact absurd ht h2
      · intro t ht
        exact absurd ht h2

/-- C8 witness: with a succeeding oracle, confirming with `y` issues an
execution call, and confirming with `n` returns the loop to Idle. -/
theorem confirmation_gate_witness :
    (∃ d, ClientEvent.executeCall d ∈ (turn agOk "task" sYes).events) ∧
      (turn agOk "task" sNo).outcome = .idle :=
  ⟨(confirmation_gate agOk "task" sYes).1.mpr
     ⟨by decide, ⟨taskReport, rfl⟩, by decide⟩,
   (confirmation_gate agOk "task" sNo).2 taskReport (by decide) rfl
     (by decide)⟩

/-- C9: any `Exception`-class error raised by a turn's agent call — task
extraction, task execution after a `y` confirmation, or the free-form
conversation call — is caught inside the loop body, shown to the user via
the error line, and the loop returns to Idle; the turn never breaks the
session. -/
theorem turn_error_caught (ag : AgentOracle) (u : String) (s : Nat → String)
    (m : String) (hx : pyLower u ≠ "exit") (hq : pyLower u ≠ "quit")
    (herr :
      (pyLower u = "task" ∧
        ag.extract (extractInstr (s 0)) = .error (.exn m)) ∨
      (pyLower u = "task" ∧
        ∃ t, ag.extract (extractInstr (s 0)) = .ok t ∧
          pyLower (s 1) = "y" ∧
          ag.execute (execInstr t) = .error (.exn m)) ∨
      (pyLower u ≠ "task" ∧ ag.freeform u = .error (.exn m))) :
    ClientEvent.errorShown (errorLine m) ∈ (turn ag u s).events ∧
      (turn ag u s).outcome = .idle := by
  have hne : ¬(pyLower u = "exit" ∨ pyLower u = "quit") := by tauto
  rcases herr with ⟨ht, he⟩ | ⟨ht, t, hok, hy, he⟩ | ⟨ht, he⟩
  · rw [turn_extract_exn_eq ag u s m hne ht he]
    exact ⟨by simp, rfl⟩
  · rw [turn_confirm_yes_exn_eq ag u s t m hne ht hok hy he]
    exact ⟨by simp, rfl⟩
  · rw [turn_free_exn_eq ag u s m hne ht he]
    exact ⟨by simp, rfl⟩

/-- C9 witness: a failing extraction call on a `task` turn is displayed
and the loop returns to Idle. -/
theorem turn_error_caught_witness :
    ClientEvent.errorShown (errorLine "boom") ∈
        (turn agFail "task" sYes).events ∧
      (turn agFail "task" sYes).outcome = .idle :=
  turn_error_caught agFail "task" sYes "boom" (by decide) (by decide)
    (Or.inl ⟨by decide, rfl⟩)

/-- C10: the output of `handle_query_error` does not depend on its
`table_name` argument. -/
theorem handle_query_error_ignores_table (e : String) (q : Option String)
    (t₁ t₂ : Option String) :
    handle_query_error e t₁ q = handle_query_error e t₂ q := rfl
